import Mathlib

/-!
Shallow embedding of the core of the `lutron_caseta_pro` Home Assistant
component (files `__init__.py` and `sensor.py`): the per-remote button
classifier `PicoRemoteButtonProcessor`, its combination matcher, the
`Caseta.CasetaBridge` connection wrapper, the weak-reference callback
registry `Caseta.CallbackHolder`, and the sensor dispatch path
`CasetaSensorData.read_output`.

Time is modelled by rationals (`ℚ`); Python `time.time()` values are
passed explicitly as `now` arguments.  Observable Home Assistant state
writes (`device.update_state(s); device.async_write_ha_state()`) are
collected as a `List ℕ` of written values, in order.
-/

/-- The three classifier states (`PicoRemoteButtonProcessor.State`). -/
inductive ButtonState
  | idle
  | first_press
  | wait_for_second_press
deriving DecidableEq, Repr

/-- Button modifiers (`PicoRemoteButtonProcessor.Modifier`). -/
inductive Modifier
  | short
  | double
  | long
deriving DecidableEq, Repr

/-- Numeric value of a modifier: SHORT=0x00, DOUBLE=0x40, LONG=0x80. -/
def Modifier.toNat : Modifier → ℕ
  | .short => 0x00
  | .double => 0x40
  | .long => 0x80

/-- State of one `PicoRemoteButtonProcessor` instance.

`timerActive` models the two `async_call_later` handles
(`timeout_handle`): component 1 is the double-press timer, component 2
the long-press timer; `true` means scheduled, not yet fired and not
cancelled.  `timeoutFlags` mirrors `timeout_flags` (set when the
corresponding timeout callback has run).  `combinations` is the
`self.combinations` dict keyed by the rule's code sequence (the Python
code keys it by `str(comb_list)[1:-1]`, which on integer lists is
injective, and later insertions overwrite earlier ones). -/
structure PicoRemoteButtonProcessor where
  state : ButtonState
  button : ℕ
  timeoutFlags : Bool × Bool
  timerActive : Bool × Bool
  silent_press : Bool
  combinations : List (List ℕ × ℕ)
  max_history_length : ℕ
  key_history : List ℕ
  last_press_time : ℚ
  press_timeout : ℚ
deriving DecidableEq, Repr

namespace PicoRemoteButtonProcessor

/-- `PicoRemoteButtonProcessor.__init__`: fresh processor built from a
remote's combination configuration.  `rules` is the configured list of
`{code, combination}` entries, in order; `self.max_history_length` is
the running maximum of the rule sequence lengths starting from 0. -/
def init (silent : Bool) (rules : List (ℕ × List ℕ)) (press_timeout : ℚ)
    (t0 : ℚ) : PicoRemoteButtonProcessor :=
  { state := ButtonState.idle
    button := 0
    timeoutFlags := (false, false)
    timerActive := (false, false)
    silent_press := silent
    combinations := rules.map (fun r => (r.2, r.1))
    max_history_length := rules.foldl (fun m r => max r.2.length m) 0
    key_history := []
    last_press_time := t0
    press_timeout := press_timeout }

/-- Dict lookup in `self.combinations`: later insertions with the same
key sequence overwrite earlier ones, hence the reverse search. -/
def combLookup (cs : List (List ℕ × ℕ)) (k : List ℕ) : Option ℕ :=
  (cs.reverse.find? (fun r => r.1 == k)).map Prod.snd

/-- `update`: one emission is two sequential observable state writes,
the composed code immediately followed by 0. -/
def update (state : ℕ) : List ℕ :=
  [state, 0]

/-- `reset`: clear the fired flags, return to `idle`, clear the held
button and cancel both pending timers. -/
def reset (p : PicoRemoteButtonProcessor) : PicoRemoteButtonProcessor :=
  { p with
    timeoutFlags := (false, false)
    state := ButtonState.idle
    button := 0
    timerActive := (false, false) }

/-- The key history after the append/restart step of
`process_combination`: restarted at `[modified_button]` when the gap
since the last press exceeds `press_timeout`, appended otherwise. -/
def historyAfter (p : PicoRemoteButtonProcessor) (now : ℚ) (modified_button : ℕ) :
    List ℕ :=
  if now - p.last_press_time > p.press_timeout then [modified_button]
  else p.key_history ++ [modified_button]

/-- `process_combination`: append (or restart) the history and stamp
`last_press_time`; on an exact rule match emit the rule's result code
and clear the history; finally clear the history whenever its length
reached `max_history_length`, matched or not.  The source mutates
`self.key_history` through these three steps in order; here the three
successive values are `hist`, `hist2`, `hist3`. -/
def process_combination (p : PicoRemoteButtonProcessor) (now : ℚ)
    (modified_button : ℕ) : PicoRemoteButtonProcessor × List ℕ :=
  let hist := historyAfter p now modified_button
  let matched := combLookup p.combinations hist
  let hist2 := match matched with
    | some _ => ([] : List ℕ)
    | none => hist
  let hist3 :=
    if hist2.length ≥ p.max_history_length then ([] : List ℕ) else hist2
  ({ p with key_history := hist3, last_press_time := now },
   match matched with
   | some code => update code
   | none => ([] : List ℕ))

/-- `do_press`: compose the code from the held button and the modifier,
emit it (unless `silent_press`), reset the state machine, then run the
combination matcher when any combination is configured. -/
def do_press (p : PicoRemoteButtonProcessor) (now : ℚ) (modifier : Modifier) :
    PicoRemoteButtonProcessor × List ℕ :=
  let modified_button := p.button ||| modifier.toNat
  let out1 := if p.silent_press then ([] : List ℕ) else update modified_button
  let p1 := reset p
  if p1.combinations ≠ [] then
    let r := process_combination p1 now modified_button
    (r.1, out1 ++ r.2)
  else (p1, out1)

/-- `handle_idle_state`: a first press clears the fired flags, moves to
`first_press` and schedules both timers; emits nothing. -/
def handle_idle_state (p : PicoRemoteButtonProcessor) (button : ℕ) :
    PicoRemoteButtonProcessor :=
  if button ≠ 0 then
    { p with
      timeoutFlags := (false, false)
      state := ButtonState.first_press
      timerActive := (true, true) }
  else p

/-- `handle_first_press_state`: on release, wait for a second press if
the double timer has not fired yet, otherwise emit SHORT. -/
def handle_first_press_state (p : PicoRemoteButtonProcessor) (now : ℚ)
    (button : ℕ) : PicoRemoteButtonProcessor × List ℕ :=
  if button = 0 then
    if p.timeoutFlags.1 = false then
      ({ p with state := ButtonState.wait_for_second_press }, [])
    else do_press p now Modifier.short
  else (p, [])

/-- `handle_wait_for_second_press_state`: a second press emits DOUBLE. -/
def handle_wait_for_second_press_state (p : PicoRemoteButtonProcessor)
    (now : ℚ) (button : ℕ) : PicoRemoteButtonProcessor × List ℕ :=
  if button ≠ 0 then do_press p now Modifier.double
  else (p, [])

/-- `process`: when a different nonzero button arrives while a previous
button is still held by the processor, emit SHORT for the pending
button first; record the new button; then run the handler for the
current (possibly just reset) state. -/
def process (p : PicoRemoteButtonProcessor) (now : ℚ) (button : ℕ) :
    PicoRemoteButtonProcessor × List ℕ :=
  let r1 : PicoRemoteButtonProcessor × List ℕ :=
    if button ≠ 0 then
      if p.button ≠ 0 ∧ p.button ≠ button then
        let r := do_press p now Modifier.short
        ({ r.1 with button := button }, r.2)
      else ({ p with button := button }, [])
    else (p, [])
  let r2 : PicoRemoteButtonProcessor × List ℕ :=
    match r1.1.state with
    | ButtonState.idle => (handle_idle_state r1.1 button, [])
    | ButtonState.first_press => handle_first_press_state r1.1 now button
    | ButtonState.wait_for_second_press =>
        handle_wait_for_second_press_state r1.1 now button
  (r2.1, r1.2 ++ r2.2)

/-- `double_press_timeout` callback body: emit SHORT when still waiting
for a second press, then record that the double timer fired (the flag
is written after the conditional emission, as in the source). -/
def double_press_timeout (p : PicoRemoteButtonProcessor) (now : ℚ) :
    PicoRemoteButtonProcessor × List ℕ :=
  let r :=
    if p.state = ButtonState.wait_for_second_press then
      do_press p now Modifier.short
    else (p, [])
  ({ r.1 with timeoutFlags := (true, r.1.timeoutFlags.2) }, r.2)

/-- `long_press_timeout` callback body: emit LONG when the button is
still in its first press, then record that the long timer fired. -/
def long_press_timeout (p : PicoRemoteButtonProcessor) (now : ℚ) :
    PicoRemoteButtonProcessor × List ℕ :=
  let r :=
    if p.state = ButtonState.first_press then
      do_press p now Modifier.long
    else (p, [])
  ({ r.1 with timeoutFlags := (r.1.timeoutFlags.1, true) }, r.2)

/-- Events delivered to one classifier: a raw bitmask from the bridge
(nonzero = press, 0 = release), or one of its two timers firing. -/
inductive Event
  | input (button : ℕ)
  | doubleFire
  | longFire
deriving DecidableEq, Repr

/-- One event step.  A timer callback runs only if that timer is
scheduled and neither fired nor cancelled; firing consumes it. -/
def step (p : PicoRemoteButtonProcessor) (now : ℚ) (e : Event) :
    PicoRemoteButtonProcessor × List ℕ :=
  match e with
  | Event.input b => process p now b
  | Event.doubleFire =>
      if p.timerActive.1 then
        double_press_timeout { p with timerActive := (false, p.timerActive.2) } now
      else (p, [])
  | Event.longFire =>
      if p.timerActive.2 then
        long_press_timeout { p with timerActive := (p.timerActive.1, false) } now
      else (p, [])

/-- Run a timestamped event sequence, concatenating the observable
state writes of every step. -/
def run (p : PicoRemoteButtonProcessor) :
    List (ℚ × Event) → PicoRemoteButtonProcessor × List ℕ
  | [] => (p, [])
  | e :: rest =>
      let r := step p e.1 e.2
      let r2 := run r.1 rest
      (r2.1, r.2 ++ r2.2)

end PicoRemoteButtonProcessor

/-! ## Bridge connection (`Caseta.CasetaBridge` in `__init__.py`)

The protocol codec `casetify.Casetify` is an external collaborator:
its module is not part of the inspected sources, so it is modelled
from the spec's codec contract (§6): `open(host) -> bool`,
`write/query/ping -> void`, `isConnected() -> bool`.  A codec session
records the commands forwarded to it. -/

namespace Caseta

/-- Protocol mode (spec §3: an enumeration including at least OUTPUT
and DEVICE). -/
inductive Mode
  | OUTPUT
  | DEVICE
deriving DecidableEq, Repr

/-- Commands the bridge can forward to the codec. -/
inductive Command
  | writeCmd (mode : Mode) (integration : ℕ) (action : ℕ) (value : ℚ)
      (extra : List ℚ)
  | queryCmd (mode : Mode) (integration : ℕ) (action : ℕ)
  | pingCmd
deriving DecidableEq, Repr

/-- Modelled from the spec: the external protocol codec
`casetify.Casetify` (§6), reduced to what the bridge observes — the
host it was opened against, whether `isConnected()` holds, and the log
of forwarded commands. -/
structure Casetify where
  host : String
  connected : Bool
  sent : List Command
deriving DecidableEq, Repr

/-- Modelled from the spec: `Casetify().open(host)` — a fresh codec
session against `host`; the success of the connection attempt is an
environment outcome, passed as `ok`. -/
def Casetify.openSession (host : String) (ok : Bool) : Casetify :=
  { host := host, connected := ok, sent := [] }

/-- Modelled from the spec: codec `write` forwards one command. -/
def Casetify.writeCodec (c : Casetify) (mode : Mode) (integration action : ℕ)
    (value : ℚ) (extra : List ℚ) : Casetify :=
  { c with sent := c.sent ++ [Command.writeCmd mode integration action value extra] }

/-- Modelled from the spec: codec `query` forwards one command. -/
def Casetify.queryCodec (c : Casetify) (mode : Mode) (integration action : ℕ) :
    Casetify :=
  { c with sent := c.sent ++ [Command.queryCmd mode integration action] }

/-- Modelled from the spec: codec `ping` probes liveness; the
connectivity it observes is an environment outcome, passed as
`connAfter`. -/
def Casetify.pingCodec (c : Casetify) (connAfter : Bool) : Casetify :=
  { c with sent := c.sent ++ [Command.pingCmd], connected := connAfter }

/-- `Caseta.CasetaBridge`: the host and the optional codec session
(`self._casetify`, `None` until `open()` first runs). -/
structure CasetaBridge where
  host : String
  casetify : Option Casetify
deriving DecidableEq, Repr

/-- `CasetaBridge.__init__`. -/
def CasetaBridge.init (host : String) : CasetaBridge :=
  { host := host, casetify := none }

/-- Whether the underlying transport is connected: `false` when no
codec session exists, otherwise the codec's `is_connected()`. -/
def CasetaBridge.isConnected (b : CasetaBridge) : Bool :=
  match b.casetify with
  | none => false
  | some c => c.connected

/-- `CasetaBridge.open`: no-op returning `True` when a codec session
already exists; otherwise create a codec and open it against the
bridge's host.  The source returns `True` unconditionally — the
outcome `ok` of the codec's connection attempt is discarded. -/
def CasetaBridge.open (b : CasetaBridge) (ok : Bool) : CasetaBridge × Bool :=
  match b.casetify with
  | some _ => (b, true)
  | none => ({ b with casetify := some (Casetify.openSession b.host ok) }, true)

/-- `CasetaBridge.write`: soft-fail `False` when `self._casetify is
None`; otherwise forward to the codec and return `True`. -/
def CasetaBridge.write (b : CasetaBridge) (mode : Mode) (integration action : ℕ)
    (value : ℚ) (extra : List ℚ) : CasetaBridge × Bool :=
  match b.casetify with
  | none => (b, false)
  | some c =>
      ({ b with casetify := some (c.writeCodec mode integration action value extra) },
        true)

/-- `CasetaBridge.query`: same soft-fail shape as `write`. -/
def CasetaBridge.query (b : CasetaBridge) (mode : Mode) (integration action : ℕ) :
    CasetaBridge × Bool :=
  match b.casetify with
  | none => (b, false)
  | some c =>
      ({ b with casetify := some (c.queryCodec mode integration action) }, true)

/-- The commands forwarded to the codec so far (empty when no session
exists). -/
def CasetaBridge.sentLog (b : CasetaBridge) : List Command :=
  match b.casetify with
  | none => []
  | some c => c.sent

/-- Tasks the keep-alive loop can put on the event loop. -/
inductive Sched
  | reconnectTask
  | pingTask
deriving DecidableEq, Repr

/-- One iteration of `CasetaBridge._ping` after its 60 s sleep, acting
on the codec session (the loop only runs once `open()` has installed
one): ping the codec, schedule a reconnect task when the codec then
reports not connected, and unconditionally reschedule the ping task.
`connAfter` is the connectivity the ping observes. -/
def pingIteration (c : Casetify) (connAfter : Bool) : Casetify × List Sched :=
  let c1 := c.pingCodec connAfter
  let tasks := if ¬c1.connected then [Sched.reconnectTask] else []
  (c1, tasks ++ [Sched.pingTask])

end Caseta

/-! ## Callback registry (`Caseta.CallbackHolder` in `__init__.py`)

`CallbackHolder` keeps a `weakref.ref` to the bound method's receiver
and the method name; `call` dereferences the weak reference and, when
the target is gone, silently does nothing.  The Python heap is
modelled as a partial map from object identities to dispatch targets;
a target that has been garbage collected is absent from the map, and
the holder stores only the identity — never the object — so holding
it cannot keep the target alive. -/

namespace Caseta

/-- A parsed protocol message as dispatched by the read loop. -/
structure ProtocolMessage where
  mode : Mode
  integration : ℕ
  action : ℕ
  value : ℚ
deriving DecidableEq, Repr

/-- A dispatch target: its handler is modelled by the log of messages
it has received. -/
structure DispatchTarget where
  handled : List ProtocolMessage
deriving DecidableEq, Repr

/-- The heap of still-alive dispatch targets, by object identity. -/
def Heap : Type := ℕ → Option DispatchTarget

/-- Garbage collection of one target: it disappears from the heap, no
matter which callback holders still reference its identity. -/
def Heap.release (hp : Heap) (id : ℕ) : Heap :=
  fun i => if i = id then none else hp i

/-- `Caseta.CallbackHolder`: the weak (non-owning) reference is the
target's identity, plus the method attribute name. -/
structure CallbackHolder where
  wref : ℕ
  callback_attr : String
deriving DecidableEq, Repr

/-- `CallbackHolder.call`: dereference the weak reference; if the
target is still alive, invoke its handler (which records the message),
otherwise do nothing. -/
def CallbackHolder.call (hp : Heap) (cb : CallbackHolder)
    (msg : ProtocolMessage) : Heap :=
  match hp cb.wref with
  | none => hp
  | some obj =>
      fun i => if i = cb.wref then some { obj with handled := obj.handled ++ [msg] }
               else hp i

end Caseta

/-! ## Sensor dispatch path (`CasetaSensorData.read_output` in `sensor.py`) -/

namespace Caseta

/-- Modelled from the spec: the codec's numeric button action values
`Casetify.Button.PRESS` (the external `casetify` module is not among
the inspected sources); only its distinctness from `RELEASE` matters
here. -/
def Button.PRESS : ℕ := 3

/-- Modelled from the spec: the codec's numeric button action value
`Casetify.Button.RELEASE`. -/
def Button.RELEASE : ℕ := 4

end Caseta

/-- The slice of a `CasetaPicoRemote` that `read_output` consults: its
lowest configured button number (`minbutton`). -/
structure SensorDevice where
  minbutton : ℕ
deriving DecidableEq, Repr

/-- `CasetaSensorData.read_output`, as the raw bitmask it feeds to the
addressed remote's `process`: `none` means the message is dropped with
no call and no state change, `some s` means `device.process(s)` is
invoked.  Non-DEVICE modes and unknown integration ids are dropped; a
PRESS value yields `1 <<< (action - minbutton)` (the Python expression
`1 << action - device.minbutton`; the model uses truncated natural
subtraction and is read under `minbutton ≤ action`), a RELEASE value
yields 0, and any other value returns before `process` is called. -/
def read_output (devices : ℕ → Option SensorDevice) (mode : Caseta.Mode)
    (integration action value : ℕ) : Option ℕ :=
  if mode ≠ Caseta.Mode.DEVICE then none
  else
    match devices integration with
    | none => none
    | some device =>
        if value = Caseta.Button.PRESS then
          some (1 <<< (action - device.minbutton))
        else if value = Caseta.Button.RELEASE then
          some 0
        else none

/-! ## Claims about the bridge connection, registry and sensor path -/

/-- C1 (counterexample).  The claim reads connectivity as the codec's
`is_connected()` (the spec's connection state machine drops to
Disconnected whenever `isConnected()` is false).  A bridge whose codec
session exists but whose transport is not connected — reachable by an
`open()` whose connection attempt failed, or by a severed transport —
still forwards `write`/`query` to the codec and returns `True`,
because the source only checks `self._casetify is None`. -/
theorem c1_counterexample :
    ((((Caseta.CasetaBridge.init "bridge").open false).1).isConnected = false) ∧
    ((((Caseta.CasetaBridge.init "bridge").open false).1).write
        Caseta.Mode.DEVICE 2 3 100 []).2 = true ∧
    ((((Caseta.CasetaBridge.init "bridge").open false).1).write
        Caseta.Mode.DEVICE 2 3 100 []).1.sentLog =
      [Caseta.Command.writeCmd Caseta.Mode.DEVICE 2 3 100 []] ∧
    ((((Caseta.CasetaBridge.init "bridge").open false).1).query
        Caseta.Mode.DEVICE 2 3).2 = true :=
  ⟨rfl, rfl, rfl, rfl⟩

/-- C1 (amended).  `write` and `query` return `False` and forward
nothing to the codec exactly when no codec session exists
(`self._casetify is None`); once a session exists they forward the
command to the codec and return `True`, even if the session's
transport is no longer connected. -/
theorem c1_write_query_soft_fail (b : Caseta.CasetaBridge) (mode : Caseta.Mode)
    (integration action : ℕ) (value : ℚ) (extra : List ℚ) :
    (b.casetify = none →
      b.write mode integration action value extra = (b, false) ∧
      b.query mode integration action = (b, false)) ∧
    (∀ c : Caseta.Casetify, b.casetify = some c →
      (b.write mode integration action value extra).2 = true ∧
      (b.write mode integration action value extra).1.sentLog =
        c.sent ++ [Caseta.Command.writeCmd mode integration action value extra] ∧
      (b.query mode integration action).2 = true ∧
      (b.query mode integration action).1.sentLog =
        c.sent ++ [Caseta.Command.queryCmd mode integration action]) := by
  constructor
  · intro h
    simp [Caseta.CasetaBridge.write, Caseta.CasetaBridge.query, h]
  · intro c h
    simp [Caseta.CasetaBridge.write, Caseta.CasetaBridge.query,
      Caseta.CasetaBridge.sentLog, Caseta.Casetify.writeCodec,
      Caseta.Casetify.queryCodec, h]

/-- C1 (witness): the amended theorem applied to a never-opened bridge
and to an opened bridge. -/
theorem c1_write_query_soft_fail_witness :
    ((Caseta.CasetaBridge.init "h").write Caseta.Mode.OUTPUT 1 1 50 []
      = (Caseta.CasetaBridge.init "h", false)) ∧
    ((((Caseta.CasetaBridge.init "h").open true).1).write
        Caseta.Mode.OUTPUT 1 1 50 []).2 = true :=
  ⟨((c1_write_query_soft_fail (Caseta.CasetaBridge.init "h")
      Caseta.Mode.OUTPUT 1 1 50 []).1 rfl).1,
   (((c1_write_query_soft_fail (((Caseta.CasetaBridge.init "h").open true).1)
      Caseta.Mode.OUTPUT 1 1 50 []).2 (Caseta.Casetify.openSession "h" true)
        rfl).1)⟩

/-- C2 (counterexample).  `open()` on a fresh bridge whose connection
attempt fails still returns `True`: the source discards the codec
attempt's outcome and returns `True` unconditionally, so the return
value does not report the failure of the attempt. -/
theorem c2_counterexample :
    (((Caseta.CasetaBridge.init "h").open false).2 = true) ∧
    (((Caseta.CasetaBridge.init "h").open false).1.isConnected = false) :=
  ⟨rfl, rfl⟩

/-- C2 (amended).  `open()` is idempotent: a no-op returning `True`
when a codec session already exists; otherwise it opens a codec
session against the endpoint's host.  It returns `True`
unconditionally — regardless of the connection attempt's outcome —
and hence never raises (and never reports failure) for an already-open
connection. -/
theorem c2_open_idempotent (b : Caseta.CasetaBridge) (ok : Bool) :
    ((b.open ok).2 = true) ∧
    (∀ c : Caseta.Casetify, b.casetify = some c → (b.open ok).1 = b) ∧
    (b.casetify = none →
      (b.open ok).1.casetify = some (Caseta.Casetify.openSession b.host ok)) := by
  refine ⟨?_, ?_, ?_⟩
  · cases h : b.casetify <;> simp [Caseta.CasetaBridge.open, h]
  · intro c h
    simp [Caseta.CasetaBridge.open, h]
  · intro h
    simp [Caseta.CasetaBridge.open, h]

/-- C2 (witness): the amended theorem applied to an already-open
bridge and to a fresh one. -/
theorem c2_open_idempotent_witness :
    ((((Caseta.CasetaBridge.init "h").open true).1.open false).1
      = ((Caseta.CasetaBridge.init "h").open true).1) ∧
    (((Caseta.CasetaBridge.init "h").open true).1.casetify
      = some (Caseta.Casetify.openSession "h" true)) :=
  ⟨(c2_open_idempotent (((Caseta.CasetaBridge.init "h").open true).1) false).2.1
      (Caseta.Casetify.openSession "h" true) rfl,
   (c2_open_idempotent (Caseta.CasetaBridge.init "h") true).2.2 rfl⟩

/-- C8.  One keep-alive iteration always forwards exactly one ping to
the codec, schedules exactly one reconnect task precisely when the
codec reports not connected after the ping, and always reschedules the
ping task (it is the last task scheduled), whatever the ping's
connectivity outcome. -/
theorem c8_keep_alive_iteration (c : Caseta.Casetify) (connAfter : Bool) :
    (Caseta.pingIteration c connAfter).1.sent =
      c.sent ++ [Caseta.Command.pingCmd] ∧
    (Caseta.pingIteration c connAfter).2.count Caseta.Sched.reconnectTask =
      (if connAfter then 0 else 1) ∧
    (Caseta.pingIteration c connAfter).2.count Caseta.Sched.pingTask = 1 ∧
    (Caseta.pingIteration c connAfter).2.getLast? = some Caseta.Sched.pingTask := by
  cases connAfter <;> exact ⟨rfl, rfl, rfl, rfl⟩

/-- C9.  Dispatching through a subscription whose target has been
released is a total no-op: the released target is not found on the
heap, no handler runs, nothing is raised (the model's `call` is a
total function), and the heap is unchanged.  The holder keeps only the
target's identity, so releasing the target succeeds regardless of the
holders that still reference it. -/
theorem c9_dead_subscription_noop (hp : Caseta.Heap)
    (cb : Caseta.CallbackHolder) (msg : Caseta.ProtocolMessage) :
    ((hp.release cb.wref) cb.wref = none) ∧
    (Caseta.CallbackHolder.call (hp.release cb.wref) cb msg
      = hp.release cb.wref) := by
  have h1 : (hp.release cb.wref) cb.wref = none := by
    simp [Caseta.Heap.release]
  exact ⟨h1, by simp [Caseta.CallbackHolder.call, h1]⟩

/-- C10.  For a DEVICE-mode message addressed to a registered remote
(and with `minbutton ≤ action`, without which the Python expression
`1 << action - device.minbutton` would raise on a negative shift): a
PRESS value feeds the remote's `process` the bitmask
`1 <<< (action - minbutton)` = `2 ^ (action - minbutton)`, a RELEASE
value feeds it 0, and any other value drops the message without
calling `process`. -/
theorem c10_read_output_conversion (devices : ℕ → Option SensorDevice)
    (integration action value : ℕ) (d : SensorDevice)
    (hdev : devices integration = some d) (hact : d.minbutton ≤ action) :
    (value = Caseta.Button.PRESS →
      read_output devices Caseta.Mode.DEVICE integration action value
        = some (2 ^ (action - d.minbutton))) ∧
    (value = Caseta.Button.RELEASE →
      read_output devices Caseta.Mode.DEVICE integration action value
        = some 0) ∧
    (value ≠ Caseta.Button.PRESS → value ≠ Caseta.Button.RELEASE →
      read_output devices Caseta.Mode.DEVICE integration action value
        = none) := by
  refine ⟨?_, ?_, ?_⟩
  · intro h
    simp [read_output, hdev, h, Nat.shiftLeft_eq]
  · intro h
    simp [read_output, hdev, h, Caseta.Button.PRESS, Caseta.Button.RELEASE]
  · intro h1 h2
    simp [read_output, hdev, h1, h2]

/-- C10 (witness): the conversion theorem applied to a registry with
one remote (integration 2, `minbutton` 3) at action 5 and values
PRESS, RELEASE, and an unrecognized value 7. -/
theorem c10_read_output_conversion_witness :
    read_output (fun i => if i = 2 then some ⟨3⟩ else none)
      Caseta.Mode.DEVICE 2 5 Caseta.Button.PRESS = some 4 ∧
    read_output (fun i => if i = 2 then some ⟨3⟩ else none)
      Caseta.Mode.DEVICE 2 5 Caseta.Button.RELEASE = some 0 ∧
    read_output (fun i => if i = 2 then some ⟨3⟩ else none)
      Caseta.Mode.DEVICE 2 5 7 = none := by
  have h := c10_read_output_conversion (fun i => if i = 2 then some ⟨3⟩ else none)
    2 5 7 ⟨3⟩ (by simp) (by decide)
  have hp := c10_read_output_conversion (fun i => if i = 2 then some ⟨3⟩ else none)
    2 5 Caseta.Button.PRESS ⟨3⟩ (by simp) (by decide)
  have hr := c10_read_output_conversion (fun i => if i = 2 then some ⟨3⟩ else none)
    2 5 Caseta.Button.RELEASE ⟨3⟩ (by simp) (by decide)
  refine ⟨?_, ?_, ?_⟩
  · simpa using hp.1 rfl
  · exact hr.2.1 rfl
  · exact h.2.2 (by decide) (by decide)

/-! ## Helper lemmas about the classifier -/

namespace PicoRemoteButtonProcessor

lemma reset_combinations (p : PicoRemoteButtonProcessor) :
    (reset p).combinations = p.combinations := rfl

lemma historyAfter_reset (p : PicoRemoteButtonProcessor) (now : ℚ) (mb : ℕ) :
    historyAfter (reset p) now mb = historyAfter p now mb := rfl

lemma do_press_fst_state (p : PicoRemoteButtonProcessor) (now : ℚ) (m : Modifier) :
    (p.do_press now m).1.state = ButtonState.idle := by
  unfold do_press
  dsimp only
  split <;> rfl

lemma do_press_fst_button (p : PicoRemoteButtonProcessor) (now : ℚ) (m : Modifier) :
    (p.do_press now m).1.button = 0 := by
  unfold do_press
  dsimp only
  split <;> rfl

lemma do_press_snd_not_silent (p : PicoRemoteButtonProcessor) (now : ℚ)
    (m : Modifier) (hs : p.silent_press = false) :
    ∃ rest, (p.do_press now m).2 = (p.button ||| m.toNat) :: 0 :: rest := by
  unfold do_press
  simp only [hs, Bool.false_eq_true, if_false]
  split
  · exact ⟨_, rfl⟩
  · exact ⟨[], rfl⟩

lemma do_press_snd_no_comb (p : PicoRemoteButtonProcessor) (now : ℚ)
    (m : Modifier) (hs : p.silent_press = false) (hc : p.combinations = []) :
    (p.do_press now m).2 = [p.button ||| m.toNat, 0] := by
  unfold do_press
  simp [hs, reset, hc, update]

lemma do_press_snd_silent_no_comb (p : PicoRemoteButtonProcessor) (now : ℚ)
    (m : Modifier) (hs : p.silent_press = true) (hc : p.combinations = []) :
    (p.do_press now m).2 = [] := by
  unfold do_press
  simp [hs, reset, hc]

lemma do_press_snd_silent_match (p : PicoRemoteButtonProcessor) (now : ℚ)
    (m : Modifier) (c : ℕ) (hs : p.silent_press = true)
    (hm : combLookup p.combinations
        (historyAfter p now (p.button ||| m.toNat)) = some c) :
    (p.do_press now m).2 = [c, 0] := by
  have hne : p.combinations ≠ [] := by
    intro he
    rw [he] at hm
    simp [combLookup] at hm
  unfold do_press
  simp only [hs, if_true]
  rw [if_pos (by simpa [reset_combinations] using hne)]
  simp [process_combination, historyAfter_reset, reset_combinations, hm, update]

/-- `process` on a different nonzero button while another is pending:
SHORT for the pending button, then the new button starts a fresh
FirstPress from the just-reset Idle state. -/
lemma process_diff_button (p : PicoRemoteButtonProcessor) (now : ℚ) (b2 : ℕ)
    (h2 : b2 ≠ 0) (h1 : p.button ≠ 0) (h3 : p.button ≠ b2) :
    p.process now b2 =
      ({ (p.do_press now Modifier.short).1 with
          button := b2
          timeoutFlags := (false, false)
          state := ButtonState.first_press
          timerActive := (true, true) },
        (p.do_press now Modifier.short).2) := by
  have hstate : ((p.do_press now Modifier.short).1).state = ButtonState.idle :=
    do_press_fst_state p now Modifier.short
  unfold process
  rw [if_pos h2, if_pos ⟨h1, h3⟩]
  dsimp only
  rw [hstate]
  simp [handle_idle_state, h2]

end PicoRemoteButtonProcessor

/-! ## Claims about the classifier -/

open PicoRemoteButtonProcessor in
/-- C3.  From a fresh classifier (no combination rules), the sequence
press(b), release, press(b) delivered before the double timer fires
(no timer event occurs in between) produces exactly one emission, the
DOUBLE code `b ||| 0x40` (as the pair of observable writes
`[b ||| 0x40, 0]`), no SHORT, and leaves the machine reset to Idle. -/
theorem c3_double_press (pt t0 t1 t2 t3 : ℚ) (b : ℕ) (hb : b ≠ 0) :
    (PicoRemoteButtonProcessor.run (init false [] pt t0)
      [(t1, Event.input b), (t2, Event.input 0), (t3, Event.input b)]).2
      = [b ||| 0x40, 0] ∧
    (PicoRemoteButtonProcessor.run (init false [] pt t0)
      [(t1, Event.input b), (t2, Event.input 0), (t3, Event.input b)]).1.state
      = ButtonState.idle := by
  constructor <;>
    simp [run, step, process, init, handle_idle_state, handle_first_press_state,
      handle_wait_for_second_press_state, do_press, reset, update, hb,
      Modifier.toNat]

open PicoRemoteButtonProcessor in
/-- C3 (witness): the double-press theorem at button 1. -/
theorem c3_double_press_witness :
    (PicoRemoteButtonProcessor.run (init false [] 0 0)
      [(0, Event.input 1), (0, Event.input 0), (0, Event.input 1)]).2
      = [1 ||| 0x40, 0] ∧
    (PicoRemoteButtonProcessor.run (init false [] 0 0)
      [(0, Event.input 1), (0, Event.input 0), (0, Event.input 1)]).1.state
      = ButtonState.idle :=
  c3_double_press 0 0 0 0 0 1 (by decide)

open PicoRemoteButtonProcessor in
/-- C4.  In every classifier state, a nonzero button `b2` arriving
while a different nonzero button is pending first emits the SHORT code
for the pending button (`button ||| 0x00`, as the leading observable
writes), resets, and then processes `b2` from Idle: the machine ends
in FirstPress holding `b2` with both timers scheduled, so `b2` is not
dropped.  (Observable emission presupposes the remote is not
configured `silent_press`, per the spec's definition of emission.) -/
theorem c4_pending_button_preempted (p : PicoRemoteButtonProcessor) (now : ℚ)
    (b2 : ℕ) (hs : p.silent_press = false) (h1 : p.button ≠ 0) (h2 : b2 ≠ 0)
    (h3 : p.button ≠ b2) :
    (∃ rest, (p.process now b2).2 = (p.button ||| 0x00) :: 0 :: rest) ∧
    (p.process now b2).1.state = ButtonState.first_press ∧
    (p.process now b2).1.button = b2 ∧
    (p.process now b2).1.timerActive = (true, true) := by
  rw [process_diff_button p now b2 h2 h1 h3]
  exact ⟨do_press_snd_not_silent p now Modifier.short hs, rfl, rfl, rfl⟩

open PicoRemoteButtonProcessor in
/-- C4 (witness): the preemption theorem on a classifier mid-press of
button 1 when button 2 arrives. -/
theorem c4_pending_button_preempted_witness :
    (∃ rest,
      (({ init false [] 1 0 with
            button := 1
            state := ButtonState.first_press
            timerActive := (true, true) } :
          PicoRemoteButtonProcessor).process 0 2).2
        = (1 ||| 0x00) :: 0 :: rest) ∧
    (({ init false [] 1 0 with
          button := 1
          state := ButtonState.first_press
          timerActive := (true, true) } :
        PicoRemoteButtonProcessor).process 0 2).1.state
      = ButtonState.first_press ∧
    (({ init false [] 1 0 with
          button := 1
          state := ButtonState.first_press
          timerActive := (true, true) } :
        PicoRemoteButtonProcessor).process 0 2).1.button = 2 ∧
    (({ init false [] 1 0 with
          button := 1
          state := ButtonState.first_press
          timerActive := (true, true) } :
        PicoRemoteButtonProcessor).process 0 2).1.timerActive = (true, true) :=
  c4_pending_button_preempted _ 0 2 rfl (by decide) (by decide) (by decide)

open PicoRemoteButtonProcessor in
/-- C5.  For a remote with the single rule `[5,6] -> 99` and
`combinationTimeout = 3`: feeding the matcher code 5 emits nothing and
leaves the history `[5]`; feeding code 6 with a gap of at most 3
emits exactly the result 99 (as the write pair `[99, 0]`) and leaves
the history empty, while a gap greater than 3 emits nothing and
leaves the history `[6]` (its length 1 is below the longest rule
length 2, so it is not cleared). -/
theorem c5_combination_match (t0 t1 t2 : ℚ) :
    (((init false [(99, [5, 6])] 3 t0).process_combination t1 5).2 = [] ∧
      ((init false [(99, [5, 6])] 3 t0).process_combination t1 5).1.key_history
        = [5]) ∧
    (t2 - t1 ≤ 3 →
      ((((init false [(99, [5, 6])] 3 t0).process_combination t1 5).1).process_combination
          t2 6).2 = [99, 0] ∧
      ((((init false [(99, [5, 6])] 3 t0).process_combination t1 5).1).process_combination
          t2 6).1.key_history = []) ∧
    (t2 - t1 > 3 →
      ((((init false [(99, [5, 6])] 3 t0).process_combination t1 5).1).process_combination
          t2 6).2 = [] ∧
      ((((init false [(99, [5, 6])] 3 t0).process_combination t1 5).1).process_combination
          t2 6).1.key_history = [6]) := by
  have hfirst :
      (init false [(99, [5, 6])] 3 t0).process_combination t1 5
        = ({ init false [(99, [5, 6])] 3 t0 with
              key_history := [5], last_press_time := t1 }, []) := by
    by_cases h01 : t1 - t0 > 3 <;>
      simp [process_combination, historyAfter, combLookup, init, h01, update]
  refine ⟨?_, ?_, ?_⟩
  · rw [hfirst]
    exact ⟨rfl, rfl⟩
  · intro h
    rw [hfirst]
    have h' : ¬ (t2 - t1 > 3) := not_lt.mpr h
    constructor <;>
      simp [process_combination, historyAfter, combLookup, init, h', update]
  · intro h
    rw [hfirst]
    constructor <;>
      simp [process_combination, historyAfter, combLookup, init, h, update]

open PicoRemoteButtonProcessor in
/-- C5 (witness): the rule fires on gap 1 (times 1 then 2) and does
not fire on gap 4 (times 1 then 5). -/
theorem c5_combination_match_witness :
    ((((init false [(99, [5, 6])] 3 0).process_combination 1 5).1).process_combination
        2 6).2 = [99, 0] ∧
    ((((init false [(99, [5, 6])] 3 0).process_combination 1 5).1).process_combination
        5 6).1.key_history = [6] :=
  ⟨((c5_combination_match 0 1 2).2.1 (by norm_num)).1,
   ((c5_combination_match 0 1 5).2.2 (by norm_num)).2⟩

open PicoRemoteButtonProcessor in
/-- C6 (counterexample).  A classifier configured with one rule whose
code sequence is empty (the configuration schema allows an empty
`combination` list) has a longest rule length of 0; after a call to
`process_combination` the history length is 0, which is not strictly
less than 0, so the claimed strict bound fails on this classifier even
though it has a configured rule. -/
theorem c6_counterexample :
    (init false [(7, [])] 3 0).combinations ≠ [] ∧
    (init false [(7, [])] 3 0).max_history_length = 0 ∧
    ¬ (((init false [(7, [])] 3 0).process_combination 1 5).1.key_history.length
        < (init false [(7, [])] 3 0).max_history_length) := by
  refine ⟨by decide, rfl, ?_⟩
  simp [process_combination, historyAfter, combLookup, init]

open PicoRemoteButtonProcessor in
/-- C6 (amended).  For every classifier with at least one configured
combination rule and whose `max_history_length` is the longest
configured rule's sequence length (as `__init__` computes it), after
any call to `process_combination` the history length never exceeds
that longest length, and is strictly less than it whenever the longest
length is positive (in particular whenever every configured sequence
is nonempty). -/
theorem c6_history_bounded (p : PicoRemoteButtonProcessor)
    (rules : List (ℕ × List ℕ)) (now : ℚ) (mb : ℕ)
    (hrules : rules ≠ [])
    (hcomb : p.combinations = rules.map (fun r => (r.2, r.1)))
    (hmax : p.max_history_length = rules.foldl (fun m r => max r.2.length m) 0) :
    ((p.process_combination now mb).1.key_history.length
        ≤ rules.foldl (fun m r => max r.2.length m) 0) ∧
    (0 < rules.foldl (fun m r => max r.2.length m) 0 →
      (p.process_combination now mb).1.key_history.length
        < rules.foldl (fun m r => max r.2.length m) 0) := by
  rw [← hmax]
  unfold process_combination
  dsimp only
  split
  · exact ⟨Nat.zero_le _, fun h => h⟩
  · next h =>
      have h' := lt_of_not_ge h
      exact ⟨le_of_lt h', fun _ => h'⟩

open PicoRemoteButtonProcessor in
/-- C6 (witness): the amended bound on a classifier with the single
rule `[5,6] -> 99`, fed code 5 at time 1. -/
theorem c6_history_bounded_witness :
    (((init false [(99, [5, 6])] 3 0).process_combination 1 5).1.key_history.length
        ≤ [(99, [5, 6])].foldl (fun m (r : ℕ × List ℕ) => max r.2.length m) 0) ∧
    (0 < [(99, [5, 6])].foldl (fun m (r : ℕ × List ℕ) => max r.2.length m) 0 →
      ((init false [(99, [5, 6])] 3 0).process_combination 1 5).1.key_history.length
        < [(99, [5, 6])].foldl (fun m (r : ℕ × List ℕ) => max r.2.length m) 0) :=
  c6_history_bounded (init false [(99, [5, 6])] 3 0) [(99, [5, 6])] 1 5
    (by decide) rfl rfl

open PicoRemoteButtonProcessor in
/-- C7.  `do_press` composes its code as the held button bitmask OR
the modifier value (SHORT=0x00, DOUBLE=0x40, LONG=0x80).  Unless the
remote's combination configuration is silent, the observable writes
begin with the two sequential edges [composed code, 0] — and are
exactly those two when no combination is configured.  When silent, the
single-press pair is suppressed (no writes at all without rules), but
a matched combination still emits its result code as the pair
[result, 0]. -/
theorem c7_do_press_emission (p : PicoRemoteButtonProcessor) (now : ℚ)
    (m : Modifier) :
    (Modifier.short.toNat = 0x00 ∧ Modifier.double.toNat = 0x40 ∧
      Modifier.long.toNat = 0x80) ∧
    (p.silent_press = false →
      ∃ rest, (p.do_press now m).2 = (p.button ||| m.toNat) :: 0 :: rest) ∧
    (p.silent_press = false → p.combinations = [] →
      (p.do_press now m).2 = [p.button ||| m.toNat, 0]) ∧
    (p.silent_press = true → p.combinations = [] →
      (p.do_press now m).2 = []) ∧
    (p.silent_press = true → ∀ c : ℕ,
      combLookup p.combinations
          (historyAfter p now (p.button ||| m.toNat)) = some c →
      (p.do_press now m).2 = [c, 0]) :=
  ⟨⟨rfl, rfl, rfl⟩,
   fun hs => do_press_snd_not_silent p now m hs,
   fun hs hc => do_press_snd_no_comb p now m hs hc,
   fun hs hc => do_press_snd_silent_no_comb p now m hs hc,
   fun hs c hm => do_press_snd_silent_match p now m c hs hm⟩

open PicoRemoteButtonProcessor in
/-- C7 (witness): a non-silent classifier with no rules holding button
2 emits [2 ||| 0x40, 0] on a DOUBLE press; a silent classifier with
the rule `[5] -> 99` holding button 5 emits only [99, 0] on a SHORT
press that matches the rule. -/
theorem c7_do_press_emission_witness :
    ((({ init false [] 1 0 with button := 2 } :
        PicoRemoteButtonProcessor).do_press 0 Modifier.double).2
      = [2 ||| 0x40, 0]) ∧
    ((({ init true [(99, [5])] 3 0 with button := 5 } :
        PicoRemoteButtonProcessor).do_press 1 Modifier.short).2
      = [99, 0]) :=
  ⟨(c7_do_press_emission ({ init false [] 1 0 with button := 2 }) 0
      Modifier.double).2.2.1 rfl rfl,
   (c7_do_press_emission ({ init true [(99, [5])] 3 0 with button := 5 }) 1
      Modifier.short).2.2.2.2 rfl 99
      (by norm_num [init, combLookup, historyAfter, Modifier.toNat])⟩
